/-
Verification of the sampling / refresh core of `system_monitor.py`.

The Python source is shallowly embedded below:
* Python floats are modelled as exact rationals (`ℚ`); Python ints as `ℤ`/`ℕ`.
* A value that Python may hold as either `int` or `float` (the reactive
  `usage` attribute starts as the int `0` and is later assigned a float) is
  modelled by the inductive `PyVal`, since `str()` renders the two differently.
* `try`/`except` blocks are modelled with `Except`: the fallible expression is
  an `Except`-valued computation, and the handler is a `match` on its result.
* The psutil query functions are modelled as an environment (`Env`) of
  `Except`-valued results, one per query, so a single widget update is a
  function of the environment and the widget's previous state.
-/
import Mathlib

/-- A Python exception value (the code only distinguishes them by provenance). -/
inductive PyErr where
  | err
  | keyError
  | indexError
  deriving DecidableEq, Repr

/-- A Python number that is either an `int` or a `float`; `str()` renders the
two differently (`str(0) = "0"` but `str(0.0) = "0.0"`), and the reactive
`usage` attribute of `CPUWidget` holds an int before the first tick and a
float afterwards. -/
inductive PyVal where
  | int (n : ℤ)
  | float (q : ℚ)
  deriving DecidableEq, Repr

/-! ### Decimal printing helpers

These model Python's number formatting: `str(i)` for ints, `str(f)` for
floats with an exact decimal expansion, and the `:.Nf` fixed-point format
(which rounds half to even, as Python does). -/

/-- Decimal digits of a natural number, most significant first.  The fuel
argument is always called with `n + 1`, which bounds the number of digits. -/
def natCharsAux : Nat → Nat → List Char
  | 0, _ => []
  | fuel + 1, n =>
    if n < 10 then [Nat.digitChar n]
    else natCharsAux fuel (n / 10) ++ [Nat.digitChar (n % 10)]

/-- Decimal digits of a natural number, most significant first. -/
def natChars (n : Nat) : List Char := natCharsAux (n + 1) n

/-- Python `str` of an int. -/
def intStr (i : ℤ) : String :=
  (if i < 0 then "-" else "") ++ ⟨natChars i.natAbs⟩

/-- Digits of the fractional part of a rational, stopping at fuel exhaustion
or when the remainder is zero.  Every produced digit is `⌊Int.fract q * 10⌋`,
which lies in `0..9`. -/
def fracChars : Nat → ℚ → List Char
  | 0, _ => []
  | fuel + 1, q =>
    if Int.fract q = 0 then []
    else Nat.digitChar ⌊Int.fract q * 10⌋.toNat ::
      fracChars fuel (Int.fract (Int.fract q * 10))

/-- Python `str` of a nonnegative float with an exact decimal expansion:
integer part, a dot, then the fractional digits (`"0"` when the fractional
part is zero, as in `str(50.0) = "50.0"`). -/
def floatStrAbs (q : ℚ) : String :=
  let fcs := fracChars 17 (Int.fract q)
  ⟨natChars ⌊q⌋.toNat ++ '.' :: (if fcs.isEmpty then ['0'] else fcs)⟩

/-- Python `str` of a float with an exact decimal expansion. -/
def floatStr (q : ℚ) : String :=
  if q < 0 then "-" ++ floatStrAbs (-q) else floatStrAbs q

/-- Python `str` of a `PyVal`. -/
def pyStr : PyVal → String
  | .int n => intStr n
  | .float q => floatStr q

/-- Round a rational to the nearest integer, half to even (Python's rounding
for `format`). -/
def roundHalfEven (q : ℚ) : ℤ :=
  let f := ⌊q⌋
  let r := q - f
  if r < 1 / 2 then f
  else if 1 / 2 < r then f + 1
  else if f % 2 = 0 then f else f + 1

/-- Left-pad a digit list with `'0'` to length `d`. -/
def padZeros (d : Nat) (cs : List Char) : List Char :=
  List.replicate (d - cs.length) '0' ++ cs

/-- Python's fixed-point format `{q:.df}`. -/
def fmtFixed (d : Nat) (q : ℚ) : String :=
  let n := roundHalfEven (q * 10 ^ d)
  let s := n.natAbs
  let ip := s / 10 ^ d
  let fp := s % 10 ^ d
  (if n < 0 then "-" else "") ++ ⟨natChars ip⟩ ++
    (if d = 0 then "" else "." ++ ⟨padZeros d (natChars fp)⟩)

/-- Python's left-aligned pad-to-width format `{s:<w}` (no truncation). -/
def padRight (s : String) (w : Nat) : String :=
  s ++ ⟨List.replicate (w - s.length) ' '⟩

/-! ### Data model

One state structure per widget class, holding exactly the reactive
attributes of the Python class, with the constructor defaults of the source
(`reactive(0)`, `reactive(None)`, `reactive([])`). -/

/-- One entry of the process table: the tuple
`(process.pid, process.name(), cpu_percent, mem_percent)`. -/
structure ProcEntry where
  pid : ℤ
  name : String
  cpu : ℚ
  mem : ℚ
  deriving DecidableEq, Repr

/-- Reactive attributes of `CPUWidget`. -/
structure CpuState where
  usage : PyVal
  temperature : Option ℚ
  fan_speed : Option ℤ
  deriving DecidableEq, Repr

/-- Reactive attributes of `MemoryWidget`. -/
structure MemState where
  usage : ℚ
  used : ℚ
  total : ℚ
  deriving DecidableEq, Repr

/-- Reactive attributes of `DiskWidget`. -/
structure DiskState where
  usage : ℚ
  used : ℚ
  total : ℚ
  deriving DecidableEq, Repr

/-- Reactive attributes of `NetworkWidget`. -/
structure NetState where
  sent : ℚ
  recv : ℚ
  deriving DecidableEq, Repr

/-- Reactive attribute of `ProcessesWidget`. -/
structure ProcState where
  processes : List ProcEntry
  deriving DecidableEq, Repr

/-- Initial `CPUWidget` state: `usage = reactive(0)` (a Python int),
`temperature = reactive(None)`, `fan_speed = reactive(None)`. -/
def initCpu : CpuState := { usage := .int 0, temperature := none, fan_speed := none }

/-- Initial `MemoryWidget` state: three `reactive(0)` attributes. -/
def initMem : MemState := { usage := 0, used := 0, total := 0 }

/-- Initial `DiskWidget` state: three `reactive(0)` attributes. -/
def initDisk : DiskState := { usage := 0, used := 0, total := 0 }

/-- Initial `NetworkWidget` state: `sent = recv = reactive(0)`. -/
def initNet : NetState := { sent := 0, recv := 0 }

/-- Initial `ProcessesWidget` state: `processes = reactive([])`. -/
def initProcs : ProcState := { processes := [] }

/-- The five widget states owned by `SystemMonitorApp`. -/
structure AppState where
  cpu : CpuState
  mem : MemState
  disk : DiskState
  net : NetState
  procs : ProcState
  deriving DecidableEq, Repr

/-- The app state right after `compose`, before the first timer tick. -/
def initApp : AppState :=
  { cpu := initCpu, mem := initMem, disk := initDisk, net := initNet, procs := initProcs }

/-- Result of `psutil.virtual_memory()` (the fields the code reads). -/
structure MemStats where
  percent : ℚ
  used : ℤ
  total : ℤ
  deriving DecidableEq, Repr

/-- Result of `psutil.disk_usage('/')` (the fields the code reads). -/
structure DiskStats where
  percent : ℚ
  used : ℤ
  total : ℤ
  deriving DecidableEq, Repr

/-- Result of `psutil.net_io_counters()` (the fields the code reads). -/
structure NetStats where
  bytes_sent : ℤ
  bytes_recv : ℤ
  deriving DecidableEq, Repr

/-- The outcomes of the psutil queries during one tick.  Each field is the
result the corresponding call would produce: `.ok` a value, or `.error` the
exception it would raise.  A temperature sensor dict maps group names to
lists of readings (each reading modelled by its `.current` value); a fan
dict likewise.  `process_iter` yields, per enumerated process, either its
fields or `none` when reading them raised `NoSuchProcess` / `AccessDenied`
/ `ZombieProcess`. -/
structure Env where
  cpu_percent : Except PyErr ℚ
  sensors_temperatures : Except PyErr (List (String × List ℚ))
  sensors_fans : Except PyErr (List (String × List ℤ))
  virtual_memory : Except PyErr MemStats
  disk_usage : Except PyErr DiskStats
  net_io_counters : Except PyErr NetStats
  process_iter : Except PyErr (List (Option ProcEntry))

/-! ### Widget update methods -/

/-- The body of the first `try` block of `CPUWidget.update_cpu`:
`psutil.sensors_temperatures()['coretemp'][0].current`.  The dict lookup
raises `KeyError` when `'coretemp'` is missing and the `[0]` raises
`IndexError` on an empty reading list. -/
def tempRead (temps : Except PyErr (List (String × List ℚ))) : Except PyErr ℚ := do
  let d ← temps
  match d.lookup "coretemp" with
  | none => throw .keyError
  | some readings =>
    match readings.head? with
    | none => throw .indexError
    | some r => pure r

/-- The body of the second `try` block of `CPUWidget.update_cpu`: read
`psutil.sensors_fans()`; if the dict is falsy the widget stores `None`
(no exception), otherwise `next(iter(fans.values()))[0].current`. -/
def fanRead (fans : Except PyErr (List (String × List ℤ))) : Except PyErr (Option ℤ) := do
  let d ← fans
  match d with
  | [] => pure none
  | (_, readings) :: _ =>
    match readings.head? with
    | none => throw .indexError
    | some r => pure (some r)

/-- `CPUWidget.update_cpu`: sets `usage` from `psutil.cpu_percent()`
(outside any `try`, so its exception propagates), then sets `temperature`
and `fan_speed` inside bare `try`/`except` blocks whose handlers store
`None`. -/
def update_cpu (env : Env) (st : CpuState) : Except PyErr CpuState := do
  let u ← env.cpu_percent
  let st := { st with usage := PyVal.float u }
  let st :=
    match tempRead env.sensors_temperatures with
    | .ok t => { st with temperature := some t }
    | .error _ => { st with temperature := none }
  let st :=
    match fanRead env.sensors_fans with
    | .ok f => { st with fan_speed := f }
    | .error _ => { st with fan_speed := none }
  pure st

/-- `MemoryWidget.update_memory`: reads `psutil.virtual_memory()` and stores
`percent`, `used / 1024**3` and `total / 1024**3` (float division). -/
def update_memory (env : Env) (st : MemState) : Except PyErr MemState := do
  let m ← env.virtual_memory
  pure { st with
    usage := m.percent
    used := (m.used : ℚ) / (1024 * 1024 * 1024)
    total := (m.total : ℚ) / (1024 * 1024 * 1024) }

/-- `DiskWidget.update_disk`: reads `psutil.disk_usage('/')` and stores
`percent`, `used / 1024**3` and `total / 1024**3`. -/
def update_disk (env : Env) (st : DiskState) : Except PyErr DiskState := do
  let d ← env.disk_usage
  pure { st with
    usage := d.percent
    used := (d.used : ℚ) / (1024 * 1024 * 1024)
    total := (d.total : ℚ) / (1024 * 1024 * 1024) }

/-- `NetworkWidget.update_network`: reads `psutil.net_io_counters()` and
stores `bytes_sent / 1024**2` and `bytes_recv / 1024**2`. -/
def update_network (env : Env) (st : NetState) : Except PyErr NetState := do
  let n ← env.net_io_counters
  pure { st with
    sent := (n.bytes_sent : ℚ) / (1024 * 1024)
    recv := (n.bytes_recv : ℚ) / (1024 * 1024) }

/-- The descending-by-CPU ordering used by
`processes.sort(key=lambda x: x[2], reverse=True)`: `a` may come before `b`
iff `b`'s CPU percent is at most `a`'s. -/
def byCpuDesc (a b : ProcEntry) : Prop := b.cpu ≤ a.cpu

instance : DecidableRel byCpuDesc := fun a b => inferInstanceAs (Decidable (b.cpu ≤ a.cpu))

instance : IsTotal ProcEntry byCpuDesc := ⟨fun a b => le_total b.cpu a.cpu⟩

instance : IsTrans ProcEntry byCpuDesc := ⟨fun _ _ _ h h' => le_trans h' h⟩

/-- Python's `list.sort` is a stable sort; with `key=lambda x: x[2]` and
`reverse=True` it orders entries descending by CPU percent and keeps equal
CPU percents in their original order, which is exactly insertion sort with
the total preorder `byCpuDesc`. -/
def sortProcs (l : List ProcEntry) : List ProcEntry := List.insertionSort byCpuDesc l

/-- The readable entries of one enumeration: processes whose field read
raised one of the three caught exceptions are skipped by `continue`. -/
def readEntries (cands : List (Option ProcEntry)) : List ProcEntry := cands.filterMap id

/-- Sort the collected entries descending by CPU percent and keep the top 5
(`processes[:5]`). -/
def topProcs (l : List ProcEntry) : List ProcEntry := (sortProcs l).take 5

/-- `ProcessesWidget.update_processes`: enumerate processes (the iterator
itself may raise), skip unreadable ones, sort by CPU percent descending,
store the first five. -/
def update_processes (env : Env) (st : ProcState) : Except PyErr ProcState := do
  let cands ← env.process_iter
  pure { st with processes := topProcs (readEntries cands) }

/-- `SystemMonitorApp.update_data`: run the five widget updates in order
inside one `try`; on the first exception the remaining updates are skipped
and the handler prints (logs) the error.  Returns the new app state and the
logged error, if any. -/
def update_data (env : Env) (app : AppState) : AppState × Option PyErr :=
  match update_cpu env app.cpu with
  | .error e => (app, some e)
  | .ok c =>
    match update_memory env app.mem with
    | .error e => ({ app with cpu := c }, some e)
    | .ok m =>
      match update_disk env app.disk with
      | .error e => ({ app with cpu := c, mem := m }, some e)
      | .ok d =>
        match update_network env app.net with
        | .error e => ({ app with cpu := c, mem := m, disk := d }, some e)
        | .ok n =>
          match update_processes env app.procs with
          | .error e => ({ app with cpu := c, mem := m, disk := d, net := n }, some e)
          | .ok p => ({ cpu := c, mem := m, disk := d, net := n, procs := p }, none)

/-! ### Render methods -/

/-- Python truthiness of the `temperature` attribute: `None` and `0.0` are
falsy. -/
def truthyQ : Option ℚ → Bool
  | none => false
  | some q => q != 0

/-- Python truthiness of the `fan_speed` attribute: `None` and `0` are
falsy. -/
def truthyZ : Option ℤ → Bool
  | none => false
  | some z => z != 0

/-- `CPUWidget.render`: the usage line always, a temperature line when
`if self.temperature:` holds, a fan line when `if self.fan_speed:` holds. -/
def renderCpu (st : CpuState) : String :=
  let content := "CPU Usage: " ++ pyStr st.usage ++ "%\n"
  let content :=
    if truthyQ st.temperature then
      content ++ "Temperature: " ++ fmtFixed 1 (st.temperature.getD 0) ++ "°C\n"
    else content
  if truthyZ st.fan_speed then
    content ++ "Fan Speed: " ++ intStr (st.fan_speed.getD 0) ++ " RPM"
  else content

/-- `MemoryWidget.render`. -/
def renderMemory (st : MemState) : String :=
  "Memory Usage: " ++ fmtFixed 1 st.usage ++ "%\n" ++
    "Used: " ++ fmtFixed 1 st.used ++ " GB / Total: " ++ fmtFixed 1 st.total ++ " GB"

/-- `DiskWidget.render`. -/
def renderDisk (st : DiskState) : String :=
  "Disk Usage: " ++ fmtFixed 1 st.usage ++ "%\n" ++
    "Used: " ++ fmtFixed 1 st.used ++ " GB / Total: " ++ fmtFixed 1 st.total ++ " GB"

/-- `NetworkWidget.render`. -/
def renderNetwork (st : NetState) : String :=
  "Network Usage:\n" ++
    "Sent: " ++ fmtFixed 2 st.sent ++ " MB\n" ++
    "Received: " ++ fmtFixed 2 st.recv ++ " MB"

/-- The header line of the process table. -/
def procHeader : String := "PID    Name                CPU%    Mem%\n"

/-- The separator line of the process table. -/
def procSep : String := "-------------------------------------------\n"

/-- One body row of the process table:
`f"{pid:<6} {name:<20} {cpu:<7.1f} {mem:<7.1f}\n"`. -/
def procRow (e : ProcEntry) : String :=
  padRight (intStr e.pid) 6 ++ " " ++ padRight e.name 20 ++ " " ++
    padRight (fmtFixed 1 e.cpu) 7 ++ " " ++ padRight (fmtFixed 1 e.mem) 7 ++ "\n"

/-- `ProcessesWidget.render`: starts from the header and separator and
appends one row per stored process with `table += ...`. -/
def renderProcesses (st : ProcState) : String :=
  st.processes.foldl (fun table e => table ++ procRow e) (procHeader ++ procSep)

/-! ### Spec-side description of a failed tick

`update_data_spec` restates the tick per the amended failure-semantics
claim: compute the five sampler results independently, find the first one
that raised, give every panel before that position its newly sampled value,
keep the previous value for the failing panel and every later one, and log
the first error. -/

/-- The error raised by an update call, if any. -/
def toErr : Except PyErr α → Option PyErr
  | .ok _ => none
  | .error e => some e

/-- The successful result of an update call, or the previous value. -/
def getOk : Except PyErr α → α → α
  | .ok a, _ => a
  | .error _, d => d

/-- Amended failure semantics of one tick, stated declaratively: panels
strictly before the first failing update hold this tick's sampled values,
the failing panel and all later panels retain their previous values, and
the first error (if any) is logged. -/
def update_data_spec (env : Env) (app : AppState) : AppState × Option PyErr :=
  let r1 := update_cpu env app.cpu
  let r2 := update_memory env app.mem
  let r3 := update_disk env app.disk
  let r4 := update_network env app.net
  let r5 := update_processes env app.procs
  let errs : List (Option PyErr) := [toErr r1, toErr r2, toErr r3, toErr r4, toErr r5]
  let k := errs.findIdx Option.isSome
  ({ cpu := if 0 < k then getOk r1 app.cpu else app.cpu
     mem := if 1 < k then getOk r2 app.mem else app.mem
     disk := if 2 < k then getOk r3 app.disk else app.disk
     net := if 3 < k then getOk r4 app.net else app.net
     procs := if 4 < k then getOk r5 app.procs else app.procs },
   (errs.getD k none))

/-! ### Substring occurrence

A small verified substring test, used to state "the rendered text contains
a temperature / fan-speed line". -/

/-- `startsW pat s`: `pat` is a prefix of `s`. -/
def startsW : List Char → List Char → Bool
  | [], _ => true
  | _ :: _, [] => false
  | p :: ps, c :: cs => p == c && startsW ps cs

/-- `hasSub pat s`: `pat` occurs contiguously somewhere in `s`. -/
def hasSub (pat : List Char) : List Char → Bool
  | [] => pat.isEmpty
  | c :: cs => startsW pat (c :: cs) || hasSub pat cs

/-- String-level wrapper for `hasSub`. -/
def hasSubStr (pat s : String) : Bool := hasSub pat.data s.data

theorem startsW_append_self (p r : List Char) : startsW p (p ++ r) = true := by
  induction p with
  | nil => rfl
  | cons c cs ih => simp [startsW, ih]

theorem hasSub_of_startsW {p s : List Char} (h : startsW p s = true) :
    hasSub p s = true := by
  cases s with
  | nil => cases p with
    | nil => rfl
    | cons c cs => simp [startsW] at h
  | cons c cs => simp [hasSub, h]

theorem hasSub_append_left (t : List Char) {p s : List Char}
    (h : hasSub p s = true) : hasSub p (t ++ s) = true := by
  induction t with
  | nil => simpa using h
  | cons c cs ih => simp [hasSub, ih]

theorem startsW_subset {p s : List Char} (h : startsW p s = true) :
    ∀ c ∈ p, c ∈ s := by
  induction p generalizing s with
  | nil => intro c hc; cases hc
  | cons x xs ih =>
    cases s with
    | nil => simp [startsW] at h
    | cons y ys =>
      simp only [startsW, Bool.and_eq_true, beq_iff_eq] at h
      intro c hc
      rcases List.mem_cons.mp hc with rfl | hc
      · exact h.1 ▸ List.mem_cons_self _ _
      · exact List.mem_cons_of_mem _ (ih h.2 c hc)

theorem hasSub_subset {p s : List Char} (h : hasSub p s = true) :
    ∀ c ∈ p, c ∈ s := by
  induction s with
  | nil =>
    cases p with
    | nil => intro c hc; cases hc
    | cons x xs => simp [hasSub, List.isEmpty] at h
  | cons y ys ih =>
    simp only [hasSub, Bool.or_eq_true] at h
    rcases h with h | h
    · exact startsW_subset h
    · intro c hc; exact List.mem_cons_of_mem _ (ih h c hc)

/-! ### Characters of numeric strings

Every character printed for a number is a digit, a dot or a minus sign, so
a label such as `"Temperature:"` can only occur in a rendered CPU panel when
the corresponding line was emitted. -/

/-- The characters that may appear in a printed number. -/
def numeral (c : Char) : Prop :=
  c ∈ ['0', '1', '2', '3', '4', '5', '6', '7', '8', '9', '.', '-']

instance (c : Char) : Decidable (numeral c) := inferInstanceAs (Decidable (c ∈ _))

theorem digitChar_numeral {n : Nat} (h : n < 10) : numeral (Nat.digitChar n) := by
  interval_cases n <;> decide

theorem natCharsAux_numeral (fuel n : Nat) : ∀ c ∈ natCharsAux fuel n, numeral c := by
  induction fuel generalizing n with
  | zero => intro c hc; cases hc
  | succ fuel ih =>
    intro c hc
    by_cases h : n < 10
    · simp only [natCharsAux, if_pos h, List.mem_singleton] at hc
      exact hc ▸ digitChar_numeral h
    · simp only [natCharsAux, if_neg h, List.mem_append, List.mem_singleton] at hc
      rcases hc with hc | rfl
      · exact ih _ c hc
      · exact digitChar_numeral (Nat.mod_lt _ (by omega))

theorem natChars_numeral (n : Nat) : ∀ c ∈ natChars n, numeral c :=
  natCharsAux_numeral _ n

theorem intStr_numeral (i : ℤ) : ∀ c ∈ (intStr i).data, numeral c := by
  intro c hc
  unfold intStr at hc
  rw [String.data_append] at hc
  rcases List.mem_append.mp hc with hc | hc
  · split at hc
    · exact (by decide : ∀ x ∈ ("-" : String).data, numeral x) c hc
    · exact absurd hc (List.not_mem_nil c)
  · exact natChars_numeral _ c hc

theorem fracChars_numeral (fuel : Nat) (q : ℚ) : ∀ c ∈ fracChars fuel q, numeral c := by
  induction fuel generalizing q with
  | zero => intro c hc; cases hc
  | succ fuel ih =>
    intro c hc
    by_cases h : Int.fract q = 0
    · simp only [fracChars, if_pos h] at hc; cases hc
    · simp only [fracChars, if_neg h, List.mem_cons] at hc
      rcases hc with rfl | hc
      · refine digitChar_numeral ?_
        have h1 : Int.fract q < 1 := Int.fract_lt_one q
        have h2 : ⌊Int.fract q * 10⌋ < 10 := by
          rw [Int.floor_lt]
          push_cast
          nlinarith
        omega
      · exact ih _ c hc

theorem floatStrAbs_numeral (q : ℚ) : ∀ c ∈ (floatStrAbs q).data, numeral c := by
  intro c hc
  unfold floatStrAbs at hc
  simp only [List.mem_append, List.mem_cons] at hc
  rcases hc with hc | rfl | hc
  · exact natChars_numeral _ c hc
  · decide
  · split at hc
    · exact (by decide : ∀ x ∈ ['0'], numeral x) c hc
    · exact fracChars_numeral _ _ c hc

theorem floatStr_numeral (q : ℚ) : ∀ c ∈ (floatStr q).data, numeral c := by
  intro c hc
  unfold floatStr at hc
  split at hc
  · rw [String.data_append] at hc
    rcases List.mem_append.mp hc with hc | hc
    · exact (by decide : ∀ x ∈ ("-" : String).data, numeral x) c hc
    · exact floatStrAbs_numeral _ c hc
  · exact floatStrAbs_numeral _ c hc

theorem pyStr_numeral (v : PyVal) : ∀ c ∈ (pyStr v).data, numeral c := by
  cases v with
  | int n => exact intStr_numeral n
  | float q => exact floatStr_numeral q

theorem padZeros_numeral {d : Nat} {cs : List Char} (h : ∀ c ∈ cs, numeral c) :
    ∀ c ∈ padZeros d cs, numeral c := by
  intro c hc
  rcases List.mem_append.mp hc with hc | hc
  · rcases List.eq_of_mem_replicate hc with rfl; decide
  · exact h c hc

theorem fmtFixed_numeral (d : Nat) (q : ℚ) : ∀ c ∈ (fmtFixed d q).data, numeral c := by
  intro c hc
  unfold fmtFixed at hc
  simp only [String.data_append] at hc
  rcases List.mem_append.mp hc with hc | hc
  · rcases List.mem_append.mp hc with hc | hc
    · split at hc
      · exact (by decide : ∀ x ∈ ("-" : String).data, numeral x) c hc
      · exact absurd hc (List.not_mem_nil c)
    · exact natChars_numeral _ c hc
  · split at hc
    · exact absurd hc (List.not_mem_nil c)
    · rw [String.data_append] at hc
      rcases List.mem_append.mp hc with hc | hc
      · exact (by decide : ∀ x ∈ ("." : String).data, numeral x) c hc
      · exact padZeros_numeral (natChars_numeral _) c hc

/-! ### Stability of the process sort

Filtering the sorted list down to any single CPU value gives back exactly
the equal-CPU entries in their original enumeration order. -/

theorem filter_orderedInsert (c : ℚ) (a : ProcEntry) (l : List ProcEntry) :
    (List.orderedInsert byCpuDesc a l).filter (fun e => e.cpu == c) =
      if a.cpu = c then a :: l.filter (fun e => e.cpu == c)
      else l.filter (fun e => e.cpu == c) := by
  induction l with
  | nil =>
    by_cases hac : a.cpu = c <;>
      simp [List.orderedInsert, List.filter_cons, hac]
  | cons b bs ih =>
    by_cases hab : byCpuDesc a b
    · rw [List.orderedInsert_of_le _ _ hab]
      by_cases hac : a.cpu = c <;>
        by_cases hbc : b.cpu = c <;>
          simp [List.filter_cons, hac, hbc]
    · have hlt : a.cpu < b.cpu := lt_of_not_le hab
      simp only [List.orderedInsert, if_neg hab]
      by_cases hac : a.cpu = c
      · have hbc : ¬(b.cpu = c) := by
          intro h; exact absurd (hac ▸ h ▸ hlt) (lt_irrefl _)
        simp [List.filter_cons, hac, hbc, ih]
      · by_cases hbc : b.cpu = c <;> simp [List.filter_cons, hac, hbc, ih]

theorem filter_sortProcs (c : ℚ) (l : List ProcEntry) :
    (sortProcs l).filter (fun e => e.cpu == c) = l.filter (fun e => e.cpu == c) := by
  induction l with
  | nil => rfl
  | cons a l ih =>
    show (List.orderedInsert byCpuDesc a (List.insertionSort byCpuDesc l)).filter _ = _
    rw [filter_orderedInsert]
    simp only [sortProcs] at ih
    by_cases hac : a.cpu = c <;> simp [List.filter_cons, hac, ih]

/-! ### Concatenation helper for the process table -/

/-- Concatenation of a list of strings. -/
def strConcat : List String → String
  | [] => ""
  | s :: rest => s ++ strConcat rest

theorem foldl_append_rows (l : List ProcEntry) (init : String) :
    l.foldl (fun table e => table ++ procRow e) init = init ++ strConcat (l.map procRow) := by
  induction l generalizing init with
  | nil => simp [strConcat]
  | cons e es ih => simp [List.foldl_cons, ih, strConcat, String.append_assoc]

/-! ### Claims -/

/-- C1 counterexample environment: CPU, memory and disk queries succeed with
fresh values, the network counter query raises, the tick's process query
would succeed. -/
def envC1 : Env :=
  { cpu_percent := .ok 50
    sensors_temperatures := .error .err
    sensors_fans := .error .err
    virtual_memory := .ok { percent := mkRat 999 10, used := 0, total := 0 }
    disk_usage := .ok { percent := 0, used := 0, total := 0 }
    net_io_counters := .error .err
    process_iter := .ok [] }

/-- C1, as stated, is false: when the fourth sampler (network) raises, the
error is logged, but the CPU panel does not retain its pre-tick value — the
widgets updated before the failing call keep the new tick's values. -/
theorem c1_counterexample :
    (update_data envC1 initApp).2.isSome = true ∧
    (update_data envC1 initApp).1.cpu ≠ initApp.cpu := by
  constructor
  · with_unfolding_all rfl
  · with_unfolding_all decide

/-- C1 (amended): a tick is equivalent to: run the five samplers, find the
first that raises; panels strictly before it hold this tick's freshly
sampled values, the failing panel and all later ones retain exactly their
previous values, and the first error is logged (returned) instead of
crashing. -/
theorem c1_failed_tick_semantics (env : Env) (app : AppState) :
    update_data env app = update_data_spec env app := by
  unfold update_data update_data_spec
  rcases update_cpu env app.cpu with e1 | c <;>
    rcases update_memory env app.mem with e2 | m <;>
      rcases update_disk env app.disk with e3 | d <;>
        rcases update_network env app.net with e4 | n <;>
          rcases update_processes env app.procs with e5 | p <;>
            rfl

/-- C7: as long as `psutil.cpu_percent()` itself returns, `update_cpu`
never raises, whatever the temperature and fan sensor queries return or
throw: a failed read leaves the corresponding field absent (`None`). -/
theorem c7_sensor_failures_absorbed (env : Env) (st : CpuState) (u : ℚ)
    (h : env.cpu_percent = .ok u) :
    update_cpu env st = .ok
      { usage := PyVal.float u
        temperature := (tempRead env.sensors_temperatures).toOption
        fan_speed := ((fanRead env.sensors_fans).toOption).join } := by
  unfold update_cpu
  rw [h]
  rcases tempRead env.sensors_temperatures with e1 | t <;>
    rcases fanRead env.sensors_fans with e2 | f <;>
      simp [Except.toOption, Option.join]

/-- C7 witness: a concrete environment where both sensor queries raise and
the fan read would also be empty; `update_cpu` returns normally with both
optional fields absent. -/
def envC7 : Env :=
  { cpu_percent := .ok 5
    sensors_temperatures := .error .err
    sensors_fans := .error .err
    virtual_memory := .error .err
    disk_usage := .error .err
    net_io_counters := .error .err
    process_iter := .error .err }

theorem c7_witness :
    update_cpu envC7 initCpu = .ok
      { usage := PyVal.float 5, temperature := none, fan_speed := none } :=
  c7_sensor_failures_absorbed envC7 initCpu 5 rfl

/-- C8 environment: the example memory snapshot of the spec. -/
def envC8 : Env :=
  { cpu_percent := .error .err
    sensors_temperatures := .error .err
    sensors_fans := .error .err
    virtual_memory := .ok { percent := mkRat 266 5, used := 8500000000, total := 16000000000 }
    disk_usage := .error .err
    net_io_counters := .error .err
    process_iter := .error .err }

/-- C8: the memory snapshot `{percent=53.2, used=8_500_000_000,
total=16_000_000_000}` is stored as gibibyte (1024³) quotients and renders
exactly as the two specified lines with one decimal each. -/
theorem c8_memory_example :
    (update_memory envC8 initMem).map renderMemory =
      .ok "Memory Usage: 53.2%\nUsed: 7.9 GB / Total: 14.9 GB" := by
  with_unfolding_all rfl

/-- C10: before the first tick each panel renders from its constructed
default state: only the usage line (value 0, no temperature or fan line)
for CPU, 0.0 % and 0.0 GB for memory and disk, 0.00 MB totals for network,
and the bare header for the process table. -/
theorem c10_initial_render :
    renderCpu initApp.cpu = "CPU Usage: 0%\n" ∧
    renderMemory initApp.mem = "Memory Usage: 0.0%\nUsed: 0.0 GB / Total: 0.0 GB" ∧
    renderDisk initApp.disk = "Disk Usage: 0.0%\nUsed: 0.0 GB / Total: 0.0 GB" ∧
    renderNetwork initApp.net = "Network Usage:\nSent: 0.00 MB\nReceived: 0.00 MB" ∧
    renderProcesses initApp.procs =
      "PID    Name                CPU%    Mem%\n-------------------------------------------\n" := by
  refine ⟨?_, ?_, ?_, ?_, ?_⟩ <;> with_unfolding_all rfl

/-- C3: for every list of successfully read process entries the stored list
is the first five of a stable descending sort: it is sorted descending by
CPU percent, and restricting the sorted order to the entries of any one CPU
value returns them exactly in enumeration order, which also makes the
output a function of the input list alone. -/
theorem c3_sorted_stable (l : List ProcEntry) :
    List.Sorted byCpuDesc (topProcs l) ∧
    (∀ c : ℚ, (sortProcs l).filter (fun e => e.cpu == c) = l.filter (fun e => e.cpu == c)) ∧
    topProcs l = (sortProcs l).take 5 := by
  refine ⟨?_, fun c => filter_sortProcs c l, rfl⟩
  exact List.Pairwise.sublist (List.take_sublist 5 _) (List.sorted_insertionSort byCpuDesc l)

/-- C4: whatever the enumeration produced, the stored process list has at
most five entries, and the rendered table is the header, the separator and
one row per stored entry — hence at most five body rows. -/
theorem c4_at_most_five (env : Env) (st st' : ProcState)
    (h : update_processes env st = .ok st') :
    st'.processes.length ≤ 5 ∧
    (st'.processes.map procRow).length ≤ 5 ∧
    renderProcesses st' = procHeader ++ procSep ++ strConcat (st'.processes.map procRow) := by
  have hst : st'.processes.length ≤ 5 := by
    rcases hpi : env.process_iter with e | cands
    · rw [update_processes, hpi] at h; cases h
    · rw [update_processes, hpi] at h
      cases h
      exact List.length_take_le 5 _
  refine ⟨hst, by simpa using hst, ?_⟩
  rw [renderProcesses, foldl_append_rows, String.append_assoc]

/-- C4 witness environment: an enumeration of seven readable processes. -/
def envC4 : Env :=
  { cpu_percent := .error .err
    sensors_temperatures := .error .err
    sensors_fans := .error .err
    virtual_memory := .error .err
    disk_usage := .error .err
    net_io_counters := .error .err
    process_iter := .ok
      [some ⟨1, "a", 1, 1⟩, some ⟨2, "b", 7, 1⟩, some ⟨3, "c", 3, 1⟩,
       some ⟨4, "d", 9, 1⟩, some ⟨5, "e", 3, 1⟩, some ⟨6, "f", 2, 1⟩,
       some ⟨7, "g", 5, 1⟩] }

/-- C4 witness result state. -/
def stC4 : ProcState :=
  { processes := topProcs (readEntries
      [some ⟨1, "a", 1, 1⟩, some ⟨2, "b", 7, 1⟩, some ⟨3, "c", 3, 1⟩,
       some ⟨4, "d", 9, 1⟩, some ⟨5, "e", 3, 1⟩, some ⟨6, "f", 2, 1⟩,
       some ⟨7, "g", 5, 1⟩]) }

theorem c4_witness :
    stC4.processes.length ≤ 5 ∧
    (stC4.processes.map procRow).length ≤ 5 ∧
    renderProcesses stC4 = procHeader ++ procSep ++ strConcat (stC4.processes.map procRow) :=
  c4_at_most_five envC4 initProcs stC4 rfl

/-- C5: a process whose fields could not be read (`none` in the
enumeration) is excluded — every stored entry comes from a readable
candidate — and the stored list still has `min 5 (number of readable
candidates)` entries. -/
theorem c5_skip_unreadable (env : Env) (st st' : ProcState)
    (cands : List (Option ProcEntry))
    (h1 : env.process_iter = .ok cands)
    (h2 : update_processes env st = .ok st') :
    st'.processes.length = min 5 (readEntries cands).length ∧
    ∀ e ∈ st'.processes, some e ∈ cands := by
  rw [update_processes, h1] at h2
  cases h2
  constructor
  · show (List.take 5 (sortProcs (readEntries cands))).length = _
    rw [List.length_take, sortProcs, (List.perm_insertionSort byCpuDesc _).length_eq]
  · intro e he
    have h3 : e ∈ sortProcs (readEntries cands) := List.take_subset 5 _ he
    have h4 : e ∈ readEntries cands :=
      (List.perm_insertionSort byCpuDesc _).mem_iff.mp h3
    rcases List.mem_filterMap.mp h4 with ⟨o, ho, hoe⟩
    exact hoe ▸ ho

/-- C5 witness environment: six readable candidates interleaved with three
unreadable ones. -/
def envC5 : Env :=
  { cpu_percent := .error .err
    sensors_temperatures := .error .err
    sensors_fans := .error .err
    virtual_memory := .error .err
    disk_usage := .error .err
    net_io_counters := .error .err
    process_iter := .ok
      [none, some ⟨1, "a", 1, 1⟩, some ⟨2, "b", 7, 1⟩, none, some ⟨3, "c", 3, 1⟩,
       some ⟨4, "d", 9, 1⟩, some ⟨5, "e", 3, 1⟩, none, some ⟨6, "f", 2, 1⟩] }

/-- C5 witness result state. -/
def stC5 : ProcState :=
  { processes := topProcs (readEntries
      [none, some ⟨1, "a", 1, 1⟩, some ⟨2, "b", 7, 1⟩, none, some ⟨3, "c", 3, 1⟩,
       some ⟨4, "d", 9, 1⟩, some ⟨5, "e", 3, 1⟩, none, some ⟨6, "f", 2, 1⟩]) }

theorem c5_witness :
    stC5.processes.length = min 5 (readEntries
      [none, some ⟨1, "a", 1, 1⟩, some ⟨2, "b", 7, 1⟩, none, some ⟨3, "c", 3, 1⟩,
       some ⟨4, "d", 9, 1⟩, some ⟨5, "e", 3, 1⟩, none, some ⟨6, "f", 2, 1⟩]).length ∧
    ∀ e ∈ stC5.processes, some e ∈
      [none, some ⟨1, "a", 1, 1⟩, some ⟨2, "b", 7, 1⟩, none, some ⟨3, "c", 3, 1⟩,
       some ⟨4, "d", 9, 1⟩, some ⟨5, "e", 3, 1⟩, none, some ⟨6, "f", 2, 1⟩] :=
  c5_skip_unreadable envC5 initProcs stC5 _ rfl rfl

/-! ### Occurrence lemmas for the CPU panel lines -/

theorem hasSub_false_of_missing {pat s : List Char} {c : Char}
    (hc : c ∈ pat) (hs : c ∉ s) : hasSub pat s = false := by
  cases h : hasSub pat s
  · rfl
  · exact absurd (hasSub_subset h c hc) hs

theorem not_mem_of_not_numeral {c : Char} (h : ¬ numeral c) {s : List Char}
    (hall : ∀ x ∈ s, numeral x) : c ∉ s := fun hm => h (hall c hm)

theorem startsW_extend {p : List Char} :
    ∀ {l : List Char} (r : List Char), startsW p l = true → startsW p (l ++ r) = true := by
  induction p with
  | nil => intro l r _; rfl
  | cons x xs ih =>
    intro l r h
    cases l with
    | nil => simp [startsW] at h
    | cons y ys =>
      simp only [startsW, Bool.and_eq_true] at h ⊢
      exact ⟨h.1, ih r h.2⟩

/-- C2 counterexample state: both optional sensors present with a reading
of `0`.  Because the render guards are Python truthiness tests, neither
line is emitted, so the display does not distinguish a reading of 0 from an
absent sensor. -/
def stC2 : CpuState := { usage := .int 7, temperature := some 0, fan_speed := some 0 }

/-- C2, as stated, is false: with temperature and fan speed present and
equal to 0, the rendered text contains neither a temperature nor a
fan-speed line. -/
theorem c2_counterexample :
    stC2.temperature.isSome = true ∧ stC2.fan_speed.isSome = true ∧
    hasSubStr "Temperature:" (renderCpu stC2) = false ∧
    hasSubStr "Fan Speed:" (renderCpu stC2) = false := by
  refine ⟨rfl, rfl, ?_, ?_⟩ <;> with_unfolding_all rfl

/-- C2 (amended): a temperature line occurs in the rendered CPU panel iff
the temperature field is present *and nonzero*, and likewise for the
fan-speed line; in particular an absent field never renders any placeholder
line, but a present reading of 0 is also suppressed. -/
theorem c2_line_iff_truthy (st : CpuState) :
    hasSubStr "Temperature:" (renderCpu st) = truthyQ st.temperature ∧
    hasSubStr "Fan Speed:" (renderCpu st) = truthyZ st.fan_speed := by
  cases ht : truthyQ st.temperature <;> cases hf : truthyZ st.fan_speed <;>
    simp only [renderCpu, ht, hf, eq_self_iff_true, Bool.false_eq_true, if_true, if_false,
      hasSubStr, String.data_append, List.append_assoc] <;> constructor
  · apply hasSub_false_of_missing (c := 'T') (by decide)
    simp only [List.mem_append, not_or]
    exact ⟨by decide, not_mem_of_not_numeral (by decide) (pyStr_numeral _), by decide⟩
  · apply hasSub_false_of_missing (c := 'F') (by decide)
    simp only [List.mem_append, not_or]
    exact ⟨by decide, not_mem_of_not_numeral (by decide) (pyStr_numeral _), by decide⟩
  · apply hasSub_false_of_missing (c := 'T') (by decide)
    simp only [List.mem_append, not_or]
    exact ⟨by decide, not_mem_of_not_numeral (by decide) (pyStr_numeral _), by decide,
      by decide, not_mem_of_not_numeral (by decide) (intStr_numeral _), by decide⟩
  · apply hasSub_append_left
    apply hasSub_append_left
    apply hasSub_append_left
    exact hasSub_of_startsW (startsW_extend _ (by decide))
  · apply hasSub_append_left
    apply hasSub_append_left
    apply hasSub_append_left
    exact hasSub_of_startsW (startsW_extend _ (by decide))
  · apply hasSub_false_of_missing (c := 'F') (by decide)
    simp only [List.mem_append, not_or]
    exact ⟨by decide, not_mem_of_not_numeral (by decide) (pyStr_numeral _), by decide,
      by decide, not_mem_of_not_numeral (by decide) (fmtFixed_numeral _ _), by decide⟩
  · apply hasSub_append_left
    apply hasSub_append_left
    apply hasSub_append_left
    exact hasSub_of_startsW (startsW_extend _ (by decide))
  · apply hasSub_append_left
    apply hasSub_append_left
    apply hasSub_append_left
    apply hasSub_append_left
    apply hasSub_append_left
    apply hasSub_append_left
    exact hasSub_of_startsW (startsW_extend _ (by decide))

/-- C6 counterexample state: the sampled CPU usage is the float 12.3. -/
def stC6 : CpuState := { usage := .float (mkRat 123 10), temperature := none, fan_speed := none }

/-- C6, as stated, is false: the usage line interpolates the value with
plain `str`, not a 0-decimal format, so a usage of 12.3 renders as
`12.3%`, not `12%`. -/
theorem c6_counterexample :
    renderCpu stC6 = "CPU Usage: 12.3%\n" ∧
    renderCpu stC6 ≠ "CPU Usage: 12%\n" := by
  constructor
  · with_unfolding_all rfl
  · with_unfolding_all decide

/-- C6 (amended): the usage value is rendered by Python's default string
conversion of the stored value (no rounding), while the temperature line
(when emitted) formats to 1 decimal with a °C suffix and the fan-speed line
(when emitted) shows the integer with an RPM suffix. -/
theorem c6_render_formats (st : CpuState) (t : ℚ) (v : ℤ)
    (ht : st.temperature = some t) (ht0 : t ≠ 0)
    (hv : st.fan_speed = some v) (hv0 : v ≠ 0) :
    renderCpu st =
      "CPU Usage: " ++ pyStr st.usage ++ "%\n" ++
        "Temperature: " ++ fmtFixed 1 t ++ "°C\n" ++
        "Fan Speed: " ++ intStr v ++ " RPM" := by
  simp only [renderCpu, ht, hv, truthyQ, truthyZ, bne_iff_ne, ne_eq, ht0, hv0,
    not_false_eq_true, if_true, Option.getD_some]

/-- C6 witness state: usage 12.3, temperature 45.67, fan speed 3000. -/
def stC6W : CpuState :=
  { usage := .float (mkRat 123 10)
    temperature := some (mkRat 4567 100)
    fan_speed := some 3000 }

theorem c6_witness :
    renderCpu stC6W =
      "CPU Usage: 12.3%\nTemperature: 45.7°C\nFan Speed: 3000 RPM" := by
  rw [c6_render_formats _ (mkRat 4567 100) 3000 rfl (by with_unfolding_all decide) rfl
    (by decide)]
  with_unfolding_all rfl
